import Mathlib

/-!
Shallow embedding of the marmot-cli credential, configuration, audit,
group-resolution and message-pipeline logic (src/main.rs,
src/nip46/config.rs, src/nip46/signer.rs, src/nip46/audit.rs).

External collaborators (the nostr library URI and key parsers, the serde
JSON codec, wall-clock time, fresh key generation, the NIP-46 bunker
network round trips, the relay network and the MLS group engine) are
modelled as explicit oracle inputs gathered in the structure Oracle or
carried on the event data itself; the filesystem is an explicit map from
path strings to file data; serde serialization of the config structure
is modelled as a structured payload (FileData.json) with a raw variant
standing for any byte content that the external codec fails to parse.
-/

/-- Bytes of a group identifier, as handed over by the MLS engine. -/
abbrev Bytes := List Nat

/-- Lower-case hex digit of a nibble, as the hex crate emits. -/
def hexDigit (n : Nat) : Char :=
  if n < 10 then Char.ofNat (48 + n) else Char.ofNat (87 + n)

/-- Hex encoding of a byte list, mirroring hex encode from the source. -/
def hexEncode (bs : Bytes) : String :=
  String.mk ((bs.map (fun b => [hexDigit (b / 16 % 16), hexDigit (b % 16)])).flatten)

/-- ASCII lower-casing of one character (str::to_lowercase on the hex
and identifier inputs handled here). -/
def lowerChar (c : Char) : Char :=
  if 65 ≤ c.toNat ∧ c.toNat ≤ 90 then Char.ofNat (c.toNat + 32) else c

/-- str::to_lowercase of the Rust standard library. -/
def strLower (s : String) : String :=
  String.mk (s.toList.map lowerChar)

/-- str::starts_with of the Rust standard library. -/
def strStartsWith (s pre : String) : Bool :=
  pre.toList.isPrefixOf s.toList

/-- Index of the last occurrence of a character in a list, if any. -/
def lastIndexOf : List Char → Char → Option Nat
  | [], _ => none
  | c :: cs, t =>
    match lastIndexOf cs t with
    | some i => some (i + 1)
    | none => if c = t then some 0 else none

/-- Path.with_extension of the Rust standard library: replace the
extension of the final path component (the part after its last dot,
unless the dot is the leading character) with the given extension. -/
def withExtension (p ext : String) : String :=
  let cs := p.toList
  let parts :=
    match lastIndexOf cs '/' with
    | some i => (cs.take (i + 1), cs.drop (i + 1))
    | none => (([] : List Char), cs)
  let stem :=
    match lastIndexOf parts.2 '.' with
    | some j => if j = 0 then parts.2 else parts.2.take j
    | none => parts.2
  String.mk (parts.1 ++ stem ++ '.' :: ext.toList)

/-- Group state as returned by the MLS engine (mdk.get_groups): the two
identifier encodings and the display name used by the CLI. -/
structure GroupState where
  mls_group_id : Bytes
  nostr_group_id : Bytes
  name : String
deriving DecidableEq

/-- Error taxonomy of the CLI, one constructor per distinct bail or
error-mapping site in the source (anyhow errors distinguished by their
message). -/
inductive CliError
  /-- NostrConnectURI parse failed ("Invalid bunker URI format"). -/
  | InvalidUriFormat
  /-- Got a nostrconnect client URI where a bunker URI was expected. -/
  | SchemeMismatch
  /-- Bunker URI has no relay ("must include at least one relay"). -/
  | InvalidCredentialDescriptor
  /-- Stored config file exists but the codec cannot parse it. -/
  | ConfigParseFailed
  /-- No bunker URI, no nsec, no stored config. -/
  | NoCredential
  /-- Supplied nsec or hex key failed to parse. -/
  | InvalidKey
  /-- Stored remote signer pubkey failed to parse. -/
  | InvalidStoredPubkey
  /-- Stored client secret key failed to parse. -/
  | InvalidStoredClientKey
  /-- NostrConnect client construction failed. -/
  | CreateClientFailed (msg : String)
  /-- migrate-to-bunker could not reach the bunker. -/
  | ConnectFailed (msg : String)
  /-- A bunker configuration already exists at the target path. -/
  | ConfigConflict
  /-- Bunker-reported pubkey differs from the local key. -/
  | IdentityMismatch (currentPk bunkerPk : String)
  /-- Signer construction could not get the pubkey from the bunker;
  carries the underlying message and the one relay named in the error
  text (config.relays.first() or the placeholder). -/
  | RemoteUnavailable (msg : String) (firstRelay : String)
  /-- No group matches the supplied prefix; names the input. -/
  | NotFound (input : String)
  /-- Several groups match the supplied prefix; enumerates them. -/
  | Ambiguous (input : String) (groups : List GroupState)
deriving DecidableEq

/-- Parsed NIP-46 connection URI (external nostr library type). -/
inductive NostrConnectURI
  | Bunker (remote_signer_public_key : String) (relays : List String)
      (secret : Option String)
  | Client (public_key : String) (relays : List String) (secret : String)
deriving DecidableEq

/-- Persistent bunker connection configuration (config.rs). -/
structure BunkerConfig where
  remote_signer_pubkey : String
  relays : List String
  secret : Option String
  client_secret_key : String
  user_pubkey : Option String
  created_at : String
  last_connected : Option String
deriving DecidableEq

/-- Content of one file: a config serialized by the external JSON codec
(which round-trips the derived structure exactly), or raw bytes the
codec does not recognise as a config. -/
inductive FileData
  | json (c : BunkerConfig)
  | raw (s : String)
deriving DecidableEq

/-- Filesystem as a map from paths to file contents. -/
abbrev FS := String → Option FileData

/-- Write (create or overwrite) one file. -/
def FS.write (fs : FS) (p : String) (d : FileData) : FS :=
  fun q => if q = p then some d else fs q

/-- Atomic rename: destination receives the source content, source is
removed. -/
def FS.rename (fs : FS) (src dst : String) : FS :=
  fun q => if q = dst then fs src else if q = src then none else fs q

/-- Oracles for the external collaborators: nostr-library parsers, key
derivation, clock, fresh key generation, and the two bunker network
steps of signer construction (NostrConnect::new and get_public_key). -/
structure Oracle where
  parseUri : String → Option NostrConnectURI
  parseBech32 : String → Option String
  parseHexKey : String → Option String
  pubOf : String → String
  parsePk : String → Option String
  parseRelay : String → Option String
  parseSecret : String → Option String
  toBech32 : String → String
  freshKey : String
  now : String
  connectNew : BunkerConfig → Except String Unit
  getPublicKey : BunkerConfig → Except String String

/-- BunkerConfig::from_bunker_uri: validate the URI, reject the client
scheme, reject an empty relay list, then build a fresh config with a
newly generated client keypair and creation timestamp. -/
def BunkerConfig.from_bunker_uri (ext : Oracle) (uri : String) :
    Except CliError BunkerConfig :=
  match ext.parseUri uri with
  | none => .error .InvalidUriFormat
  | some (.Client _ _ _) => .error .SchemeMismatch
  | some (.Bunker pk relays secret) =>
    if relays.isEmpty then .error .InvalidCredentialDescriptor
    else .ok { remote_signer_pubkey := pk, relays := relays, secret := secret,
               client_secret_key := ext.freshKey, user_pubkey := none,
               created_at := ext.now, last_connected := none }

/-- BunkerConfig::to_nostr_connect_uri: parse the stored signer pubkey
(failing on a malformed one) and keep exactly the relay strings that
parse as relay URLs (filter_map: unparseable ones are dropped). -/
def BunkerConfig.to_nostr_connect_uri (c : BunkerConfig) (ext : Oracle) :
    Except CliError NostrConnectURI :=
  match ext.parsePk c.remote_signer_pubkey with
  | none => .error .InvalidStoredPubkey
  | some pk => .ok (.Bunker pk (c.relays.filterMap ext.parseRelay) c.secret)

/-- BunkerConfig::client_keys: parse the stored client secret key. -/
def BunkerConfig.client_keys (c : BunkerConfig) (ext : Oracle) :
    Except CliError String :=
  match ext.parseSecret c.client_secret_key with
  | none => .error .InvalidStoredClientKey
  | some sk => .ok sk

/-- BunkerConfig::config_path: db_path.with_extension("bunker.json"). -/
def BunkerConfig.config_path (db_path : String) : String :=
  withExtension db_path "bunker.json"

/-- BunkerConfig::load: absent file is Ok(None), unparseable file is an
error, otherwise the parsed config. -/
def BunkerConfig.load (db_path : String) (fs : FS) :
    Except CliError (Option BunkerConfig) :=
  match fs (BunkerConfig.config_path db_path) with
  | none => .ok none
  | some (.json c) => .ok (some c)
  | some (.raw _) => .error .ConfigParseFailed

/-- BunkerConfig::save: serialize, write a temp file beside the target,
atomically rename it into place (permission tightening not modelled). -/
def BunkerConfig.save (c : BunkerConfig) (db_path : String) (fs : FS) : FS :=
  let path := BunkerConfig.config_path db_path
  let tmp_path := withExtension path "json.tmp"
  (fs.write tmp_path (.json c)).rename tmp_path path

/-- BunkerConfig::update_connected: stamp last_connected with the
current time and overwrite the cached user pubkey when one is given. -/
def BunkerConfig.update_connected (c : BunkerConfig) (ext : Oracle)
    (user_pubkey : Option String) : BunkerConfig :=
  { c with last_connected := some ext.now,
           user_pubkey := match user_pubkey with
             | some pk => some pk
             | none => c.user_pubkey }

/-- C5: save followed by load on the same database path returns a config
equal in every field to the one saved (persistence round-trip). -/
theorem save_load_roundtrip (c : BunkerConfig) (db_path : String) (fs : FS) :
    BunkerConfig.load db_path (BunkerConfig.save c db_path fs) = .ok (some c) := by
  simp [BunkerConfig.load, BunkerConfig.save, FS.rename, FS.write]

/-- Signing mode for the CLI (config.rs): direct key or bunker. Keys are
represented by their secret hex material. -/
inductive SigningMode
  | DirectKey (keys : String)
  | Bunker (config : BunkerConfig)
deriving DecidableEq

/-- Key parsing used for an explicitly supplied nsec argument: a string
starting with "nsec" goes through the bech32 parser, anything else
through the hex secret-key parser (appears verbatim in
SigningMode::resolve and in migrate_to_bunker). -/
def parseKeyInput (ext : Oracle) (s : String) : Option String :=
  if strStartsWith s "nsec" then ext.parseBech32 s else ext.parseHexKey s

/-- SigningMode::resolve: explicit bunker URI first, then explicit nsec,
then a stored bunker config, otherwise the NoCredential error. -/
def SigningMode.resolve (ext : Oracle) (nsec bunker_uri : Option String)
    (db_path : String) (fs : FS) : Except CliError SigningMode :=
  match bunker_uri with
  | some uri =>
    match BunkerConfig.from_bunker_uri ext uri with
    | .error e => .error e
    | .ok config => .ok (.Bunker config)
  | none =>
  match nsec with
  | some s =>
    match parseKeyInput ext s with
    | some sk => .ok (.DirectKey sk)
    | none => .error .InvalidKey
  | none =>
  match BunkerConfig.load db_path fs with
  | .error e => .error e
  | .ok (some config) => .ok (.Bunker config)
  | .ok none => .error .NoCredential

/-- Backend of a constructed signer (signer.rs SignerMode); the bunker
variant keeps the connection config (the NostrConnect handle itself is
part of the network oracle). -/
inductive SignerMode
  | Direct (keys : String)
  | Bunker (config : BunkerConfig)
deriving DecidableEq

/-- Unified signer (signer.rs MarmotSigner): backend plus the resolved
user public key. -/
structure MarmotSigner where
  mode : SignerMode
  public_key : String
deriving DecidableEq

/-- MarmotSigner::new: direct mode derives the public key locally and
always succeeds; bunker mode rebuilds the connect URI and client keys,
creates the NIP-46 client, asks the bunker for the user public key
(failure names the first relay, or a placeholder when the list is
empty), and on success persists the updated config (last_connected and
confirmed user pubkey) before the signer is returned. The audit record
and advisory prints of the source carry no state modelled here. -/
def MarmotSigner.new (ext : Oracle) (signing_mode : SigningMode)
    (db_path : String) (fs : FS) : Except CliError (MarmotSigner × FS) :=
  match signing_mode with
  | .DirectKey keys =>
    .ok ({ mode := .Direct keys, public_key := ext.pubOf keys }, fs)
  | .Bunker config =>
    match config.to_nostr_connect_uri ext with
    | .error e => .error e
    | .ok _uri =>
    match config.client_keys ext with
    | .error e => .error e
    | .ok _client_keys =>
    match ext.connectNew config with
    | .error e => .error (.CreateClientFailed e)
    | .ok _ =>
    match ext.getPublicKey config with
    | .error e => .error (.RemoteUnavailable e (config.relays.headD "(none)"))
    | .ok public_key =>
      let config := config.update_connected ext (some public_key)
      let fs := config.save db_path fs
      .ok ({ mode := .Bunker config, public_key := public_key }, fs)

/-- migrate_to_bunker (main.rs): parse the URI, refuse when a config
already exists, connect to the bunker for the user pubkey, verify
identity against the current nsec when one is supplied, and only then
save the updated config. Returns the operation result together with the
final filesystem. -/
def migrate_to_bunker (ext : Oracle) (db_path bunker_uri : String)
    (current_nsec : Option String) (fs : FS) : Except CliError Unit × FS :=
  match BunkerConfig.from_bunker_uri ext bunker_uri with
  | .error e => (.error e, fs)
  | .ok config =>
  match BunkerConfig.load db_path fs with
  | .error e => (.error e, fs)
  | .ok (some _) => (.error .ConfigConflict, fs)
  | .ok none =>
  match config.to_nostr_connect_uri ext with
  | .error e => (.error e, fs)
  | .ok _uri =>
  match config.client_keys ext with
  | .error e => (.error e, fs)
  | .ok _client_keys =>
  match ext.connectNew config with
  | .error e => (.error (.CreateClientFailed e), fs)
  | .ok _ =>
  match ext.getPublicKey config with
  | .error e => (.error (.ConnectFailed e), fs)
  | .ok bunker_pubkey =>
  match current_nsec with
  | some nsec =>
    match parseKeyInput ext nsec with
    | none => (.error .InvalidKey, fs)
    | some sk =>
      if ext.pubOf sk ≠ bunker_pubkey then
        (.error (.IdentityMismatch (ext.pubOf sk) bunker_pubkey), fs)
      else
        (.ok (), (config.update_connected ext (some bunker_pubkey)).save db_path fs)
  | none =>
    (.ok (), (config.update_connected ext (some bunker_pubkey)).save db_path fs)

/-- Predicate of MarmotCli::resolve_group_id: the lower-cased input is a
prefix of the hex encoding of the MLS group id or of the Nostr group id
(both encodings are lower-case hex). -/
def groupMatches (lowered : String) (g : GroupState) : Bool :=
  strStartsWith (hexEncode g.mls_group_id) lowered
    || strStartsWith (hexEncode g.nostr_group_id) lowered

/-- MarmotCli::resolve_group_id: filter the groups by prefix match on
either identifier encoding; zero matches is NotFound naming the input,
one match returns that MLS group id, several matches is Ambiguous
enumerating every matching group. -/
def resolve_group_id (groups : List GroupState) (input : String) :
    Except CliError Bytes :=
  match groups.filter (groupMatches (strLower input)) with
  | [] => .error (.NotFound input)
  | [g] => .ok g.mls_group_id
  | g1 :: g2 :: rest => .error (.Ambiguous input (g1 :: g2 :: rest))

/-- Nostr event kind of a gift-wrapped MLS welcome rumor. -/
def KindMlsWelcome : Nat := 444

/-- Inner rumor of a gift-wrapped event, as the signer reveals it. -/
structure Rumor where
  kind : Nat
deriving DecidableEq

/-- One gift-wrap event of phase 1 of receive_messages, carrying the
outcomes of the two external calls made on it: the signer unwrap
(extract_rumor) and, when fed, the engine welcome processing. -/
structure GiftWrapEvent where
  id : String
  unwrap : Except String Rumor
  processWelcome : Except String Unit

/-- Engine verdict on one group message (mdk.process_message). -/
inductive MessageProcessingResult
  | ApplicationMessage (pubkey : String) (content : String)
  | Commit
  | Other
deriving DecidableEq

/-- One group message event of phase 3, carrying the outcome of the
external engine call made on it. -/
structure GroupEvent where
  id : String
  created_at : Nat
  processResult : Except String MessageProcessingResult

/-- JSON payload handed to the on-message callback (main.rs
MessagePayload). -/
structure MessagePayload where
  message_id : String
  group_id : String
  group_name : String
  sender : String
  sender_hex : String
  content : String
  timestamp : Nat
  is_me : Bool
deriving DecidableEq

/-- Phase 1 of receive_messages: count the gift wraps that unwrap to a
welcome-kind rumor and are accepted by the engine; unwrap failures and
processing failures are logged and skipped. -/
def processGiftWraps : List GiftWrapEvent → Nat
  | [] => 0
  | e :: rest =>
    (match e.unwrap with
     | .ok r =>
       if r.kind = KindMlsWelcome then
         match e.processWelcome with
         | .ok _ => 1
         | .error _ => 0
       else 0
     | .error _ => 0) + processGiftWraps rest

/-- Phase 3 inner loop of receive_messages for one group: every
delivered application message increments the count and pushes exactly
one payload (is_me is set when the sender is the local identity);
commits, other outcomes and processing errors are skipped. -/
def processGroupEvents (ext : Oracle) (selfPk : String) (g : GroupState) :
    List GroupEvent → Nat × List MessagePayload
  | [] => (0, [])
  | e :: rest =>
    let acc := processGroupEvents ext selfPk g rest
    match e.processResult with
    | .ok (.ApplicationMessage pk content) =>
      (acc.1 + 1,
       { message_id := e.id,
         group_id := hexEncode g.mls_group_id,
         group_name := g.name,
         sender := ext.toBech32 pk,
         sender_hex := pk,
         content := content,
         timestamp := e.created_at,
         is_me := pk = selfPk } :: acc.2)
    | .ok .Commit => acc
    | .ok .Other => acc
    | .error _ => acc

/-- Phase 3 outer loop: groups processed in enumeration order, counts
summed, payload lists concatenated in order. -/
def processAllGroups (ext : Oracle) (selfPk : String) :
    List (GroupState × List GroupEvent) → Nat × List MessagePayload
  | [] => (0, [])
  | (g, evs) :: rest =>
    let here := processGroupEvents ext selfPk g evs
    let there := processAllGroups ext selfPk rest
    (here.1 + there.1, here.2 ++ there.2)

/-- MarmotCli::receive_messages, one pass: welcomes found in phase 1
(phase 2 only prints pending welcomes and moves no state), then the
message count and ordered callback payloads of phase 3. -/
def receive_messages (ext : Oracle) (selfPk : String)
    (giftwraps : List GiftWrapEvent)
    (groups : List (GroupState × List GroupEvent)) :
    Nat × Nat × List MessagePayload :=
  let phase3 := processAllGroups ext selfPk groups
  (processGiftWraps giftwraps, phase3.1, phase3.2)

/-- Callback dispatch of the Listen loop (main.rs): walk the payloads in
order, skip exactly the self-authored ones, invoke the callback on the
rest; a non-zero exit code or a spawn failure is reported and does not
stop the loop. Returns the list of performed invocations with their
outcomes. -/
def listen_dispatch_callbacks (run : MessagePayload → Except String Int) :
    List MessagePayload → List (MessagePayload × Except String Int)
  | [] => []
  | p :: rest =>
    if p.is_me then listen_dispatch_callbacks run rest
    else (p, run p) :: listen_dispatch_callbacks run rest

/-- Audit log entry (audit.rs). -/
structure AuditEntry where
  timestamp : String
  operation : String
  details : String
deriving DecidableEq

/-- Append-only audit log handle (audit.rs AuditLog). -/
structure AuditLog where
  path : String
  enabled : Bool
deriving DecidableEq

/-- AuditLog::new: sidecar path next to the database, enabled. -/
def AuditLog.new (db_path : String) : AuditLog :=
  { path := withExtension db_path "audit.jsonl", enabled := true }

/-- AuditLog::disabled: no-op variant used where audit writes are
undesired. -/
def AuditLog.disabled : AuditLog :=
  { path := "/dev/null", enabled := false }

/-- Oracles for the fallible steps inside AuditLog::record: the serde
serialization of the entry, the file open, and the line write. -/
structure AuditIO where
  serialize : AuditEntry → Option String
  openOk : Bool
  writeOk : Bool

/-- AuditLog::record: best-effort append of one serialized entry; every
serialization or I/O failure is caught and discarded, the file is left
as it was, and no error is ever returned to the caller (the Rust return
type is the unit type). The audit file is the list of its lines. -/
def AuditLog.record (log : AuditLog) (io : AuditIO)
    (now operation details : String) (file : List String) : List String :=
  if !log.enabled then file
  else
    match io.serialize { timestamp := now, operation := operation,
                         details := details } with
    | none => file
    | some line =>
      if io.openOk then (if io.writeOk then file ++ [line] else file)
      else file

/-- Empty filesystem used by the concrete witnesses. -/
def fs0 : FS := fun _ => none

/-- Concrete oracle used by the concrete witnesses. -/
def extTest : Oracle :=
  { parseUri := fun u =>
      if u = "bunker://pk?relay=wss://r" then
        some (.Bunker "pk" ["wss://r"] (some "tok"))
      else if u = "bunker://pk0" then some (.Bunker "pk0" [] none)
      else if u = "nostrconnect://c" then some (.Client "c" ["wss://r"] "s")
      else none,
    parseBech32 := fun s => if s = "nsec1abc" then some "sk1" else none,
    parseHexKey := fun s => if s = "deadbeef" then some "sk2" else none,
    pubOf := fun sk => sk ++ "-pub",
    parsePk := fun p => some p,
    parseRelay := fun r => if strStartsWith r "wss://" then some r else none,
    parseSecret := fun s => some s,
    toBech32 := fun p => "npub" ++ p,
    freshKey := "freshkey",
    now := "2026-01-01T00:00:00Z",
    connectNew := fun _ => .ok (),
    getPublicKey := fun _ => .ok "sk1-pub" }

/-- Config produced by parsing the witness bunker URI with extTest. -/
def cfgA : BunkerConfig :=
  { remote_signer_pubkey := "pk", relays := ["wss://r"], secret := some "tok",
    client_secret_key := "freshkey", user_pubkey := none,
    created_at := "2026-01-01T00:00:00Z", last_connected := none }

/-- C1: credential resolution precedence. An explicitly supplied bunker
URI is used whenever present (its parse outcome, success or failure, is
the outcome, regardless of any nsec); otherwise an explicitly supplied
nsec is used; otherwise a stored config is loaded and used; and when
none of the three are present, construction fails with NoCredential. -/
theorem signing_mode_precedence (ext : Oracle) (db_path : String) (fs : FS) :
    (∀ nsec uri config, BunkerConfig.from_bunker_uri ext uri = .ok config →
        SigningMode.resolve ext nsec (some uri) db_path fs
          = .ok (.Bunker config)) ∧
    (∀ nsec uri e, BunkerConfig.from_bunker_uri ext uri = .error e →
        SigningMode.resolve ext nsec (some uri) db_path fs = .error e) ∧
    (∀ s sk, parseKeyInput ext s = some sk →
        SigningMode.resolve ext (some s) none db_path fs
          = .ok (.DirectKey sk)) ∧
    (∀ config, BunkerConfig.load db_path fs = .ok (some config) →
        SigningMode.resolve ext none none db_path fs
          = .ok (.Bunker config)) ∧
    (BunkerConfig.load db_path fs = .ok none →
        SigningMode.resolve ext none none db_path fs
          = .error .NoCredential) := by
  refine ⟨?_, ?_, ?_, ?_, ?_⟩
  · intro nsec uri config h; simp [SigningMode.resolve, h]
  · intro nsec uri e h; simp [SigningMode.resolve, h]
  · intro s sk h; simp [SigningMode.resolve, h]
  · intro config h; simp [SigningMode.resolve, h]
  · intro h; simp [SigningMode.resolve, h]

/-- C1 witness: with both an nsec and a bunker URI supplied, the bunker
URI wins; and on an empty filesystem with nothing supplied, resolution
fails with NoCredential. -/
theorem signing_mode_precedence_witness :
    SigningMode.resolve extTest (some "deadbeef")
        (some "bunker://pk?relay=wss://r") "marmot.db" fs0
      = .ok (.Bunker cfgA) ∧
    SigningMode.resolve extTest none none "marmot.db" fs0
      = .error .NoCredential := by
  exact ⟨(signing_mode_precedence extTest "marmot.db" fs0).1
           (some "deadbeef") "bunker://pk?relay=wss://r" cfgA rfl,
         (signing_mode_precedence extTest "marmot.db" fs0).2.2.2.2 rfl⟩

/-- C2: for every descriptor that parses as a bunker URI with at least
one relay, from_bunker_uri succeeds and the config keeps exactly that
non-empty relay list; with zero relays it fails with the
InvalidCredentialDescriptor error; and a descriptor of the client
(nostrconnect) scheme fails with the scheme-mismatch error. -/
theorem from_bunker_uri_contract (ext : Oracle) (uri : String) :
    (∀ pk relays secret,
        ext.parseUri uri = some (.Bunker pk relays secret) → relays ≠ [] →
        BunkerConfig.from_bunker_uri ext uri
          = .ok { remote_signer_pubkey := pk, relays := relays,
                  secret := secret, client_secret_key := ext.freshKey,
                  user_pubkey := none, created_at := ext.now,
                  last_connected := none } ∧
        ∀ c, BunkerConfig.from_bunker_uri ext uri = .ok c →
          c.relays ≠ []) ∧
    (∀ pk secret, ext.parseUri uri = some (.Bunker pk [] secret) →
        BunkerConfig.from_bunker_uri ext uri
          = .error .InvalidCredentialDescriptor) ∧
    (∀ cpk crelays csecret,
        ext.parseUri uri = some (.Client cpk crelays csecret) →
        BunkerConfig.from_bunker_uri ext uri = .error .SchemeMismatch) := by
  refine ⟨?_, ?_, ?_⟩
  · intro pk relays secret h hne
    have hempty : relays.isEmpty = false := by
      cases relays with
      | nil => exact absurd rfl hne
      | cons a l => rfl
    constructor
    · simp [BunkerConfig.from_bunker_uri, h, hempty]
    · intro c hc
      simp [BunkerConfig.from_bunker_uri, h, hempty] at hc
      simp [← hc, hne]
  · intro pk secret h
    simp [BunkerConfig.from_bunker_uri, h]
  · intro cpk crelays csecret h
    simp [BunkerConfig.from_bunker_uri, h]

/-- C2 witness: the three outcomes at concrete descriptors: a valid
one-relay bunker URI parses to a config with that relay, a zero-relay
bunker URI is rejected as invalid, and a nostrconnect URI is rejected
with the scheme mismatch. -/
theorem from_bunker_uri_contract_witness :
    BunkerConfig.from_bunker_uri extTest "bunker://pk?relay=wss://r"
      = .ok cfgA ∧
    BunkerConfig.from_bunker_uri extTest "bunker://pk0"
      = .error .InvalidCredentialDescriptor ∧
    BunkerConfig.from_bunker_uri extTest "nostrconnect://c"
      = .error .SchemeMismatch := by
  refine ⟨?_, ?_, ?_⟩
  · exact ((from_bunker_uri_contract extTest "bunker://pk?relay=wss://r").1
      "pk" ["wss://r"] (some "tok") rfl (by simp)).1
  · exact (from_bunker_uri_contract extTest "bunker://pk0").2.1 "pk0" none rfl
  · exact (from_bunker_uri_contract extTest "nostrconnect://c").2.2
      "c" ["wss://r"] "s" rfl

/-- C3: the three-way total contract of group resolution. A group
matches exactly when the lower-cased input is a prefix of either of its
two (lower-case) hex identifier encodings; zero matches resolve to a
NotFound error naming the input, exactly one match resolves to that
group MLS id, and two or more matches resolve to an Ambiguous error
carrying every matching group, with no tie-breaking. -/
theorem resolve_group_contract (groups : List GroupState) (input : String) :
    (∀ g, g ∈ groups →
        (groupMatches (strLower input) g = true ↔
          (strStartsWith (hexEncode g.mls_group_id) (strLower input) = true ∨
           strStartsWith (hexEncode g.nostr_group_id) (strLower input) = true))) ∧
    (groups.filter (groupMatches (strLower input)) = [] →
        resolve_group_id groups input = .error (.NotFound input)) ∧
    (∀ g, groups.filter (groupMatches (strLower input)) = [g] →
        resolve_group_id groups input = .ok g.mls_group_id) ∧
    (∀ g1 g2 rest,
        groups.filter (groupMatches (strLower input)) = g1 :: g2 :: rest →
        resolve_group_id groups input
          = .error (.Ambiguous input (g1 :: g2 :: rest))) := by
  refine ⟨?_, ?_, ?_, ?_⟩
  · intro g _
    simp [groupMatches]
  · intro h; simp [resolve_group_id, h]
  · intro g h; simp [resolve_group_id, h]
  · intro g1 g2 rest h; simp [resolve_group_id, h]

/-- First demo group of the C3 witness, MLS id hex aa11. -/
def grpAlpha : GroupState :=
  { mls_group_id := [170, 17], nostr_group_id := [187, 1], name := "alpha" }

/-- Second demo group of the C3 witness, MLS id hex aa22. -/
def grpBeta : GroupState :=
  { mls_group_id := [170, 34], nostr_group_id := [187, 2], name := "beta" }

/-- C3 witness: over groups aa11 and aa22, the upper-case input AA is
ambiguous and enumerates both, aa11 resolves uniquely, and zz is not
found. -/
theorem resolve_group_contract_witness :
    resolve_group_id [grpAlpha, grpBeta] "AA"
      = .error (.Ambiguous "AA" [grpAlpha, grpBeta]) ∧
    resolve_group_id [grpAlpha, grpBeta] "aa11" = .ok [170, 17] ∧
    resolve_group_id [grpAlpha, grpBeta] "zz"
      = .error (.NotFound "zz") := by
  refine ⟨?_, ?_, ?_⟩
  · exact (resolve_group_contract [grpAlpha, grpBeta] "AA").2.2.2
      grpAlpha grpBeta [] (by decide)
  · exact (resolve_group_contract [grpAlpha, grpBeta] "aa11").2.2.1
      grpAlpha (by decide)
  · exact (resolve_group_contract [grpAlpha, grpBeta] "zz").2.1 (by decide)

/-- C4: when a config file already exists at the database path, the
migration refuses to proceed: whenever the supplied descriptor parses,
the result is exactly the ConfigConflict error, and in every case
(parseable descriptor or not) the filesystem, and in particular the
existing config file, is returned unchanged. -/
theorem migrate_config_conflict (ext : Oracle) (db_path uri : String)
    (nsec : Option String) (fs : FS) (c : BunkerConfig)
    (hload : BunkerConfig.load db_path fs = .ok (some c)) :
    (∀ config, BunkerConfig.from_bunker_uri ext uri = .ok config →
        migrate_to_bunker ext db_path uri nsec fs
          = (.error .ConfigConflict, fs)) ∧
    (migrate_to_bunker ext db_path uri nsec fs).2 = fs ∧
    (migrate_to_bunker ext db_path uri nsec fs).2
        (BunkerConfig.config_path db_path) = some (.json c) := by
  have hfile : fs (BunkerConfig.config_path db_path) = some (.json c) := by
    revert hload
    unfold BunkerConfig.load
    cases h : fs (BunkerConfig.config_path db_path) with
    | none => simp
    | some d => cases d <;> simp_all
  have hunchanged : (migrate_to_bunker ext db_path uri nsec fs).2 = fs := by
    cases hcfg : BunkerConfig.from_bunker_uri ext uri <;>
      simp [migrate_to_bunker, hcfg, hload]
  refine ⟨?_, hunchanged, by rw [hunchanged]; exact hfile⟩
  intro config hcfg
  simp [migrate_to_bunker, hcfg, hload]

/-- Filesystem of the C4 witness: exactly the stored config cfgA at the
config path of marmot.db. -/
def fsWithCfg : FS :=
  fun q => if q = BunkerConfig.config_path "marmot.db" then some (.json cfgA)
           else none

/-- C4 witness: at a path holding cfgA, migrating with a valid
descriptor yields ConfigConflict and the filesystem still holds cfgA. -/
theorem migrate_config_conflict_witness :
    migrate_to_bunker extTest "marmot.db" "bunker://pk?relay=wss://r"
        none fsWithCfg
      = (.error .ConfigConflict, fsWithCfg) ∧
    (migrate_to_bunker extTest "marmot.db" "bunker://pk?relay=wss://r"
        none fsWithCfg).2 (BunkerConfig.config_path "marmot.db")
      = some (.json cfgA) := by
  exact ⟨(migrate_config_conflict extTest "marmot.db"
            "bunker://pk?relay=wss://r" none fsWithCfg cfgA rfl).1
            cfgA rfl,
         (migrate_config_conflict extTest "marmot.db"
            "bunker://pk?relay=wss://r" none fsWithCfg cfgA rfl).2.2⟩

/-- C10: migration verifies identity before persisting. With no stored
config and a reachable bunker reporting pubkey bpk: when a current nsec
is supplied whose derived pubkey differs from bpk, migration fails with
the identity-mismatch error and the filesystem is unchanged (no config
written); when the derived pubkey matches bpk, or when no nsec is
supplied, migration succeeds and persists the config stamped with the
confirmed bunker pubkey. -/
theorem migrate_identity_verification (ext : Oracle) (db_path uri : String)
    (fs : FS) (config : BunkerConfig) (u : NostrConnectURI)
    (ck bpk : String)
    (hcfg : BunkerConfig.from_bunker_uri ext uri = .ok config)
    (hload : BunkerConfig.load db_path fs = .ok none)
    (huri : config.to_nostr_connect_uri ext = .ok u)
    (hck : config.client_keys ext = .ok ck)
    (hnew : ext.connectNew config = .ok ())
    (hpk : ext.getPublicKey config = .ok bpk) :
    (∀ nsec sk, parseKeyInput ext nsec = some sk → ext.pubOf sk ≠ bpk →
        migrate_to_bunker ext db_path uri (some nsec) fs
          = (.error (.IdentityMismatch (ext.pubOf sk) bpk), fs)) ∧
    (∀ nsec sk, parseKeyInput ext nsec = some sk → ext.pubOf sk = bpk →
        migrate_to_bunker ext db_path uri (some nsec) fs
          = (.ok (), (config.update_connected ext (some bpk)).save db_path fs)) ∧
    (migrate_to_bunker ext db_path uri none fs
        = (.ok (), (config.update_connected ext (some bpk)).save db_path fs)) ∧
    (config.update_connected ext (some bpk)).user_pubkey = some bpk := by
  refine ⟨?_, ?_, ?_, ?_⟩
  · intro nsec sk hsk hne
    simp [migrate_to_bunker, hcfg, hload, huri, hck, hnew, hpk, hsk, hne]
  · intro nsec sk hsk heq
    simp [migrate_to_bunker, hcfg, hload, huri, hck, hnew, hpk, hsk, heq]
  · simp [migrate_to_bunker, hcfg, hload, huri, hck, hnew, hpk]
  · simp [BunkerConfig.update_connected]

/-- C10 witness: with the test oracle (bunker reports sk1-pub), the hex
key deadbeef derives sk2-pub and migration fails with the mismatch
leaving the filesystem empty, while the nsec nsec1abc derives sk1-pub
and migration persists the confirmed config. -/
theorem migrate_identity_verification_witness :
    migrate_to_bunker extTest "marmot.db" "bunker://pk?relay=wss://r"
        (some "deadbeef") fs0
      = (.error (.IdentityMismatch "sk2-pub" "sk1-pub"), fs0) ∧
    migrate_to_bunker extTest "marmot.db" "bunker://pk?relay=wss://r"
        (some "nsec1abc") fs0
      = (.ok (), (cfgA.update_connected extTest (some "sk1-pub")).save
                   "marmot.db" fs0) := by
  refine ⟨?_, ?_⟩
  · exact (migrate_identity_verification extTest "marmot.db"
      "bunker://pk?relay=wss://r" fs0 cfgA
      (.Bunker "pk" ["wss://r"] (some "tok")) "freshkey" "sk1-pub"
      rfl rfl rfl rfl rfl rfl).1
      "deadbeef" "sk2" (by decide) (by decide)
  · exact (migrate_identity_verification extTest "marmot.db"
      "bunker://pk?relay=wss://r" fs0 cfgA
      (.Bunker "pk" ["wss://r"] (some "tok")) "freshkey" "sk1-pub"
      rfl rfl rfl rfl rfl rfl).2.1
      "nsec1abc" "sk1" (by decide) (by decide)

/-- C7 (amended): remote backend construction. When the bunker session
is created but the user public key cannot be obtained within the
timeout, construction fails with a RemoteUnavailable error carrying the
underlying message and the first relay address of the config (or a
placeholder when there is none); on success the connection record is
updated (last-connected timestamp, confirmed user public key) and
persisted to the config path before the signer is returned — the
returned state always carries the confirmed key. -/
theorem bunker_signer_construction (ext : Oracle) (config : BunkerConfig)
    (db_path : String) (fs : FS) (u : NostrConnectURI) (ck : String)
    (huri : config.to_nostr_connect_uri ext = .ok u)
    (hck : config.client_keys ext = .ok ck)
    (hnew : ext.connectNew config = .ok ()) :
    (∀ e, ext.getPublicKey config = .error e →
        MarmotSigner.new ext (.Bunker config) db_path fs
          = .error (.RemoteUnavailable e (config.relays.headD "(none)"))) ∧
    (∀ pk, ext.getPublicKey config = .ok pk →
        MarmotSigner.new ext (.Bunker config) db_path fs
          = .ok ({ mode := .Bunker (config.update_connected ext (some pk)),
                   public_key := pk },
                 (config.update_connected ext (some pk)).save db_path fs) ∧
        (config.update_connected ext (some pk)).user_pubkey = some pk ∧
        (config.update_connected ext (some pk)).last_connected
          = some ext.now) := by
  refine ⟨?_, ?_⟩
  · intro e h
    simp [MarmotSigner.new, huri, hck, hnew, h]
  · intro pk h
    refine ⟨?_, ?_, ?_⟩
    · simp [MarmotSigner.new, huri, hck, hnew, h]
    · simp [BunkerConfig.update_connected]
    · simp [BunkerConfig.update_connected]

/-- C7 witness: with the test oracle the bunker reports sk1-pub, and
construction from cfgA returns the signer and the filesystem holding
the updated, confirmed config. -/
theorem bunker_signer_construction_witness :
    MarmotSigner.new extTest (.Bunker cfgA) "marmot.db" fs0
      = .ok ({ mode := .Bunker (cfgA.update_connected extTest
                                   (some "sk1-pub")),
               public_key := "sk1-pub" },
             (cfgA.update_connected extTest (some "sk1-pub")).save
                "marmot.db" fs0) ∧
    (cfgA.update_connected extTest (some "sk1-pub")).user_pubkey
      = some "sk1-pub" := by
  refine ⟨?_, ?_⟩
  · exact ((bunker_signer_construction extTest cfgA "marmot.db" fs0
      (.Bunker "pk" ["wss://r"] (some "tok")) "freshkey"
      rfl rfl rfl).2 "sk1-pub" rfl).1
  · exact ((bunker_signer_construction extTest cfgA "marmot.db" fs0
      (.Bunker "pk" ["wss://r"] (some "tok")) "freshkey"
      rfl rfl rfl).2 "sk1-pub" rfl).2.1

/-- Config with two relays for the C7 counterexample. -/
def cfgTwoRelays : BunkerConfig :=
  { remote_signer_pubkey := "pk", relays := ["wss://a", "wss://b"],
    secret := none, client_secret_key := "csk", user_pubkey := none,
    created_at := "t0", last_connected := none }

/-- Oracle whose bunker get_public_key round trip times out. -/
def extOffline : Oracle :=
  { extTest with getPublicKey := fun _ => .error "timeout" }

/-- C7 counterexample: two relay addresses are configured (and so
attempted), yet the RemoteUnavailable error produced by the failed
construction names only the first of them — the claim that the error
names the relay addresses attempted does not hold for the second. -/
theorem remote_error_names_only_first_relay :
    cfgTwoRelays.relays = ["wss://a", "wss://b"] ∧
    MarmotSigner.new extOffline (.Bunker cfgTwoRelays) "marmot.db" fs0
      = .error (.RemoteUnavailable "timeout" "wss://a") := by
  exact ⟨rfl, rfl⟩

/-- Helper for C6: within one group, the delivered-message count equals
the number of payloads produced. -/
theorem processGroupEvents_count (ext : Oracle) (selfPk : String)
    (g : GroupState) (evs : List GroupEvent) :
    (processGroupEvents ext selfPk g evs).1
      = (processGroupEvents ext selfPk g evs).2.length := by
  induction evs with
  | nil => simp [processGroupEvents]
  | cons e rest ih =>
    cases h : e.processResult with
    | error msg => simpa [processGroupEvents, h] using ih
    | ok r =>
      cases r with
      | ApplicationMessage pk content => simp [processGroupEvents, h, ih]
      | Commit => simpa [processGroupEvents, h] using ih
      | Other => simpa [processGroupEvents, h] using ih

/-- Helper for C6: across all groups, the delivered-message count equals
the number of payloads produced. -/
theorem processAllGroups_count (ext : Oracle) (selfPk : String)
    (groups : List (GroupState × List GroupEvent)) :
    (processAllGroups ext selfPk groups).1
      = (processAllGroups ext selfPk groups).2.length := by
  induction groups with
  | nil => simp [processAllGroups]
  | cons ge rest ih =>
    cases ge with
    | mk g evs =>
      simp [processAllGroups, ih, processGroupEvents_count ext selfPk g evs]

/-- Helper for C6: the callback dispatch loop invokes the callback on
exactly the payloads whose self-authored flag is false, in order. -/
theorem listen_dispatch_filter (run : MessagePayload → Except String Int)
    (payloads : List MessagePayload) :
    (listen_dispatch_callbacks run payloads).map Prod.fst
      = payloads.filter (fun p => !p.is_me) := by
  induction payloads with
  | nil => simp [listen_dispatch_callbacks]
  | cons p rest ih =>
    cases h : p.is_me <;>
      simp [listen_dispatch_callbacks, h, ih, List.filter_cons]

/-- C6: in every pipeline pass the aggregate messages-delivered count
equals the number of callback payloads produced, and in listen mode the
external callback is invoked exactly on the payloads whose self-authored
flag is false (skipped exactly when the flag is set). -/
theorem receive_payload_callback_contract (ext : Oracle) (selfPk : String)
    (giftwraps : List GiftWrapEvent)
    (groups : List (GroupState × List GroupEvent))
    (run : MessagePayload → Except String Int) :
    (receive_messages ext selfPk giftwraps groups).2.1
      = (receive_messages ext selfPk giftwraps groups).2.2.length ∧
    (listen_dispatch_callbacks run
        (receive_messages ext selfPk giftwraps groups).2.2).map Prod.fst
      = (receive_messages ext selfPk giftwraps groups).2.2.filter
          (fun p => !p.is_me) := by
  refine ⟨?_, ?_⟩
  · simp [receive_messages, processAllGroups_count ext selfPk groups]
  · exact listen_dispatch_filter run _

/-- C8: the audit record operation is total and never propagates a
failure: its result is always a file state, the file is left unchanged
when serialization fails, when the open fails or when the write fails
(the failure is discarded), the entry is appended when everything
succeeds on an enabled log, and the disabled variant accepts every call
as a no-op. -/
theorem audit_record_never_fails (log : AuditLog) (io : AuditIO)
    (now op det : String) (file : List String) :
    (io.serialize { timestamp := now, operation := op, details := det }
        = none → log.record io now op det file = file) ∧
    (io.openOk = false → log.record io now op det file = file) ∧
    (io.writeOk = false → log.record io now op det file = file) ∧
    (∀ line, log.enabled = true →
        io.serialize { timestamp := now, operation := op, details := det }
          = some line →
        io.openOk = true → io.writeOk = true →
        log.record io now op det file = file ++ [line]) ∧
    (AuditLog.disabled.record io now op det file = file) := by
  refine ⟨?_, ?_, ?_, ?_, ?_⟩
  · intro h
    cases he : log.enabled <;> simp [AuditLog.record, he, h]
  · intro h
    cases he : log.enabled <;>
      cases hs : io.serialize { timestamp := now, operation := op,
                                details := det } <;>
      simp [AuditLog.record, he, hs, h]
  · intro h
    cases he : log.enabled <;>
      cases hs : io.serialize { timestamp := now, operation := op,
                                details := det } <;>
      simp [AuditLog.record, he, hs, h]
  · intro line he hs ho hw
    simp [AuditLog.record, he, hs, ho, hw]
  · simp [AuditLog.record, AuditLog.disabled]

/-- Audit oracle of the C8 witness whose file open always fails. -/
def auditIoBroken : AuditIO :=
  { serialize := fun e => some e.details, openOk := false, writeOk := false }

/-- Audit oracle of the C8 witness where everything succeeds. -/
def auditIoOk : AuditIO :=
  { serialize := fun e => some e.details, openOk := true, writeOk := true }

/-- C8 witness: on an enabled log a failed open leaves the file alone, a
fully successful record appends the line, and the disabled log ignores
the call. -/
theorem audit_record_never_fails_witness :
    (AuditLog.new "marmot.db").record auditIoBroken "t" "sign" "d" ["old"]
      = ["old"] ∧
    (AuditLog.new "marmot.db").record auditIoOk "t" "sign" "d" ["old"]
      = ["old", "d"] ∧
    AuditLog.disabled.record auditIoOk "t" "sign" "d" ["old"] = ["old"] := by
  refine ⟨?_, ?_, ?_⟩
  · exact (audit_record_never_fails (AuditLog.new "marmot.db") auditIoBroken
      "t" "sign" "d" ["old"]).2.1 rfl
  · exact (audit_record_never_fails (AuditLog.new "marmot.db") auditIoOk
      "t" "sign" "d" ["old"]).2.2.2.1 "d" rfl rfl rfl rfl
  · exact (audit_record_never_fails AuditLog.disabled auditIoOk
      "t" "sign" "d" ["old"]).2.2.2.2

/-- Stored config with an empty relay array for C9. -/
def cfgNoRelays : BunkerConfig :=
  { remote_signer_pubkey := "pk", relays := [], secret := none,
    client_secret_key := "csk", user_pubkey := none, created_at := "t0",
    last_connected := none }

/-- Stored config whose only relay string does not parse as a relay URL
for C9. -/
def cfgBadRelay : BunkerConfig :=
  { remote_signer_pubkey := "pk", relays := ["not-a-url"], secret := none,
    client_secret_key := "csk", user_pubkey := none, created_at := "t0",
    last_connected := none }

/-- C9: the non-empty-relay invariant is enforced only at URI parse
time. There is a well-formed persisted config file with an empty relay
array that load accepts unchanged, and its reconstructed connection URI
has zero relays; and there is a loaded config with a non-empty relay
list whose entries all fail relay-URL parsing, and its reconstructed
connection URI silently drops them all, again yielding zero relays. -/
theorem load_skips_relay_validation :
    (∃ (c : BunkerConfig) (fs : FS) (ext : Oracle) (pk : String),
        c.relays = [] ∧
        BunkerConfig.load "marmot.db" fs = .ok (some c) ∧
        c.to_nostr_connect_uri ext = .ok (.Bunker pk [] c.secret)) ∧
    (∃ (c : BunkerConfig) (fs : FS) (ext : Oracle) (pk : String),
        c.relays ≠ [] ∧
        BunkerConfig.load "marmot.db" fs = .ok (some c) ∧
        (∀ r, r ∈ c.relays → ext.parseRelay r = none) ∧
        c.to_nostr_connect_uri ext = .ok (.Bunker pk [] c.secret)) := by
  refine ⟨⟨cfgNoRelays,
           fun q => if q = BunkerConfig.config_path "marmot.db" then
                      some (.json cfgNoRelays) else none,
           extTest, "pk", rfl, ?_, rfl⟩,
          ⟨cfgBadRelay,
           fun q => if q = BunkerConfig.config_path "marmot.db" then
                      some (.json cfgBadRelay) else none,
           extTest, "pk", by simp [cfgBadRelay], ?_, ?_, rfl⟩⟩
  · simp [BunkerConfig.load]
  · simp [BunkerConfig.load]
  · intro r hr
    simp [cfgBadRelay] at hr
    subst hr
    rfl
